import Mathlib

/-!
Verification of the friendly-umbrella backend authentication and tenant-approval
subsystem: a shallow embedding of the backend's auth service
(packages/backend/src/services/authService.ts, bundled in the source tree with
middleware/errorHandler.ts), the centralized error-translation middleware, and
the role-guard / admin-approval behaviour exercised by the repository's tests.
Database state is modelled explicitly as lists of tenant and user records;
fallible operations return an Except value carrying an HTTP status code and a
message, mirroring the http-errors library.
-/

namespace FriendlyUmbrella

/-- An HTTP error as produced by the http-errors library: status code plus message. -/
structure Err where
  statusCode : Nat
  message : String
deriving DecidableEq

/-! ### Password utilities (utils/password.ts) -/

/-- Modelled from the spec: the file utils/password.ts is absent from the source
tree (only its unit tests are present); per the spec the password utilities are
thin wrappers over bcrypt.  A bcrypt hash is modelled as an ideal salted hash
record: algorithm version, cost factor, the per-call random salt, and a digest
determined by the password. -/
structure BcryptHash where
  version : String
  cost : Nat
  salt : Nat
  digest : String
deriving DecidableEq

/-- Modelled from the spec: hashPassword hashes with bcrypt at a fixed cost; the
random salt drawn by the call is passed here explicitly. -/
def hashPassword (password : String) (salt : Nat) : BcryptHash :=
  { version := "2b", cost := 12, salt := salt, digest := password }

/-- Modelled from the spec: comparePassword re-derives the digest from the
candidate password under the salt stored in the hash and compares digests. -/
def comparePassword (candidate : String) (hash : BcryptHash) : Bool :=
  (hashPassword candidate hash.salt).digest == hash.digest

/-- The textual form of a bcrypt hash: dollar-separated version, cost, salt and
digest fields, as in the bcrypt modular crypt format. -/
def renderHash (h : BcryptHash) : String :=
  "$" ++ h.version ++ "$" ++ toString h.cost ++ "$" ++ toString h.salt ++ "$" ++ h.digest

/-- A string matches the bcrypt format when it opens with the modular-crypt
version tag, as checked by the repository's password unit tests. -/
def matchesBcryptFormat (s : String) : Bool :=
  s.data.take 4 == "$2b$".data

/-! ### JWT utilities (utils/jwt.ts) -/

/-- The token payload carried by both token families: userId, tenantId, role
and tenantType, as in utils/jwt.ts and its tests. -/
structure TokenPayload where
  userId : String
  tenantId : String
  role : String
  tenantType : String
deriving DecidableEq

/-- Modelled from the spec: the file utils/jwt.ts is absent from the source tree
(only its unit tests are present); per the spec the JWT utilities are thin
wrappers over jsonwebtoken.  Signing is modelled symbolically: a signed token
records the signing secret and the payload, and verification succeeds exactly
when the verifying secret equals the signing secret. -/
structure SignedToken where
  secret : String
  payload : TokenPayload
deriving DecidableEq

/-- The two environment secrets consulted by the JWT utilities; an absent value
models an unset environment variable. -/
structure JwtEnv where
  jwtSecret : Option String
  jwtRefreshSecret : Option String
deriving DecidableEq

/-- Modelled from the spec: generateAccessToken signs the payload with the
JWT_SECRET environment value and throws when it is not configured. -/
def generateAccessToken (env : JwtEnv) (payload : TokenPayload) : Except Err SignedToken :=
  match env.jwtSecret with
  | none => .error ⟨500, "JWT_SECRET not configured"⟩
  | some s => .ok ⟨s, payload⟩

/-- Modelled from the spec: generateRefreshToken signs the payload with the
JWT_REFRESH_SECRET environment value and throws when it is not configured. -/
def generateRefreshToken (env : JwtEnv) (payload : TokenPayload) : Except Err SignedToken :=
  match env.jwtRefreshSecret with
  | none => .error ⟨500, "JWT_REFRESH_SECRET not configured"⟩
  | some s => .ok ⟨s, payload⟩

/-- Modelled from the spec: verifyAccessToken checks the token against the
JWT_SECRET environment value; a token signed under any other secret fails. -/
def verifyAccessToken (env : JwtEnv) (token : SignedToken) : Except Err TokenPayload :=
  match env.jwtSecret with
  | none => .error ⟨500, "JWT_SECRET not configured"⟩
  | some s => if token.secret == s then .ok token.payload else .error ⟨401, "invalid signature"⟩

/-- Modelled from the spec: verifyRefreshToken checks the token against the
JWT_REFRESH_SECRET environment value. -/
def verifyRefreshToken (env : JwtEnv) (token : SignedToken) : Except Err TokenPayload :=
  match env.jwtRefreshSecret with
  | none => .error ⟨500, "JWT_REFRESH_SECRET not configured"⟩
  | some s => if token.secret == s then .ok token.payload else .error ⟨401, "invalid signature"⟩

/-! ### Relational data model (prisma schema: Tenant and User) -/

/-- Tenant type enum of the Prisma schema: supplier or company. -/
inductive TenantType where
  | supplier
  | company
deriving DecidableEq

/-- Tenant status enum of the Prisma schema: pending, active or rejected. -/
inductive TenantStatus where
  | pending
  | active
  | rejected
deriving DecidableEq

/-- User status enum of the Prisma schema: pending, active or rejected. -/
inductive UserStatus where
  | pending
  | active
  | rejected
deriving DecidableEq

/-- A Tenant row: the fields of the schema that the auth subsystem reads. -/
structure Tenant where
  id : String
  name : String
  type : TenantType
  email : String
  status : TenantStatus
  isActive : Bool
deriving DecidableEq

/-- A User row.  The role column is kept as a string: AuthService.register
stores the incoming role with a cast, and AuthService.login compares it against
the literal string super_admin. -/
structure User where
  id : String
  tenantId : Option String
  email : String
  passwordHash : BcryptHash
  firstName : Option String
  lastName : Option String
  role : String
  status : UserStatus
  isActive : Bool
deriving DecidableEq

/-- The database state visible to the auth subsystem: the tenant and user tables. -/
structure DB where
  tenants : List Tenant
  users : List User
deriving DecidableEq

/-- prisma.user.findUnique on the unique email column. -/
def findUserByEmail (db : DB) (email : String) : Option User :=
  db.users.find? (fun u => u.email == email)

/-- prisma.tenant.findUnique on the unique email column. -/
def findTenantByEmail (db : DB) (email : String) : Option Tenant :=
  db.tenants.find? (fun t => t.email == email)

/-- prisma.tenant.findUnique on the primary key. -/
def findTenantById (db : DB) (id : String) : Option Tenant :=
  db.tenants.find? (fun t => t.id == id)

/-- The tenant join requested by AuthService.login via an include clause:
resolve the user's foreign key against the tenant table. -/
def userTenant (db : DB) (u : User) : Option Tenant :=
  match u.tenantId with
  | none => none
  | some tid => findTenantById db tid

/-- Render a tenant type the way token payloads carry it. -/
def tenantTypeStr : TenantType → String
  | .supplier => "supplier"
  | .company => "company"

/-! ### AuthService.login (authService.ts, bundled with middleware/errorHandler.ts) -/

/-- The login request body. -/
structure LoginInput where
  email : String
  password : String
deriving DecidableEq

/-- The user object returned by a successful login. -/
structure UserView where
  id : String
  email : String
  firstName : Option String
  lastName : Option String
  role : String
  tenantId : Option String
  tenantType : String
deriving DecidableEq

/-- The token pair returned by a successful login. -/
structure Tokens where
  accessToken : SignedToken
  refreshToken : SignedToken
deriving DecidableEq

/-- The result object of AuthService.login. -/
structure LoginResult where
  user : UserView
  tokens : Tokens
deriving DecidableEq

/-- The token payload built on the super-admin branch of AuthService.login:
tenantId falls back to the empty string and tenantType is the literal system. -/
def superAdminPayload (user : User) : TokenPayload :=
  ⟨user.id, user.tenantId.getD "", user.role, "system"⟩

/-- The super-admin branch of AuthService.login: only the user's own status is
checked, then both tokens are generated. -/
def loginSuperAdmin (env : JwtEnv) (user : User) : Except Err LoginResult :=
  if user.status != UserStatus.active || !user.isActive then
    .error ⟨403, "Account is pending approval or inactive"⟩
  else
    match generateAccessToken env (superAdminPayload user),
          generateRefreshToken env (superAdminPayload user) with
    | .ok a, .ok r =>
        .ok ⟨⟨user.id, user.email, user.firstName, user.lastName, user.role,
              user.tenantId, "system"⟩, ⟨a, r⟩⟩
    | .error e, _ => .error e
    | .ok _, .error e => .error e

/-- The token payload built on the regular-user branch of AuthService.login. -/
def tenantPayload (user : User) (tenant : Tenant) : TokenPayload :=
  ⟨user.id, user.tenantId.getD "", user.role, tenantTypeStr tenant.type⟩

/-- The regular-user branch of AuthService.login: the tenant must exist, the
tenant status is checked before the user status, then tokens are generated. -/
def loginTenantUser (env : JwtEnv) (db : DB) (user : User) : Except Err LoginResult :=
  match userTenant db user with
  | none => .error ⟨403, "User account is invalid"⟩
  | some tenant =>
    if tenant.status != TenantStatus.active || !tenant.isActive then
      .error ⟨403, "Your company/supplier account is pending approval by a super administrator"⟩
    else if user.status != UserStatus.active || !user.isActive then
      .error ⟨403, "Your user account is pending approval by your organization administrator"⟩
    else
      match generateAccessToken env (tenantPayload user tenant),
            generateRefreshToken env (tenantPayload user tenant) with
      | .ok a, .ok r =>
          .ok ⟨⟨user.id, user.email, user.firstName, user.lastName, user.role,
                user.tenantId, tenantTypeStr tenant.type⟩, ⟨a, r⟩⟩
      | .error e, _ => .error e
      | .ok _, .error e => .error e

/-- AuthService.login: look the user up by email, verify the password before any
status check, then branch on whether the user is a super admin. -/
def login (env : JwtEnv) (db : DB) (input : LoginInput) : Except Err LoginResult :=
  match findUserByEmail db input.email with
  | none => .error ⟨401, "Invalid email or password"⟩
  | some user =>
    if !comparePassword input.password user.passwordHash then
      .error ⟨401, "Invalid email or password"⟩
    else if user.role == "super_admin" then
      loginSuperAdmin env user
    else
      loginTenantUser env db user

/-! ### AuthService.register -/

/-- The registration request body; firstName, lastName and role are optional. -/
structure RegisterInput where
  tenantName : String
  tenantType : TenantType
  email : String
  password : String
  firstName : Option String
  lastName : Option String
  role : Option String
deriving DecidableEq

/-- The user object embedded in a successful registration result. -/
structure RegisteredUserView where
  id : String
  email : String
  firstName : Option String
  lastName : Option String
  role : String
  status : UserStatus
  tenantId : Option String
  tenantType : TenantType
  tenantStatus : TenantStatus
deriving DecidableEq

/-- The result object of AuthService.register: a message and the created user,
with no token fields at all. -/
structure RegisterResult where
  message : String
  user : RegisteredUserView
deriving DecidableEq

/-- JavaScript falsiness of the optional role string: absent or empty. The
source guards the role default with a bang test, which treats the empty string
like an absent value. -/
def jsFalsy : Option String → Bool
  | none => true
  | some s => s == ""

/-- The role stored by AuthService.register: the incoming role unless it is
falsy, in which case it is derived from the tenant type. -/
def registerRole (input : RegisterInput) : String :=
  if jsFalsy input.role then
    match input.tenantType with
    | .supplier => "supplier_admin"
    | .company => "company_admin"
  else input.role.getD ""

/-- Failure injection for the fallible steps inside the registration
transaction: bcrypt hashing and the user insert can each throw. -/
structure TxEff where
  hashFails : Bool
  userCreateFails : Bool
deriving DecidableEq

/-- The Prisma transaction primitive: run the body against the current state;
commit its state on success, roll back to the original state on error. -/
def runTransaction {α : Type} (db : DB) (body : DB → Except Err (DB × α)) :
    Except Err α × DB :=
  match body db with
  | .ok (db', a) => (.ok a, db')
  | .error e => (.error e, db)

/-- The transaction body of AuthService.register: create the pending tenant,
hash the password, create the pending user pointing at the tenant. -/
def registerTxBody (eff : TxEff) (input : RegisterInput) (tenantId userId : String)
    (salt : Nat) (db : DB) : Except Err (DB × (Tenant × User)) :=
  let tenant : Tenant :=
    { id := tenantId, name := input.tenantName, type := input.tenantType,
      email := input.email, status := .pending, isActive := false }
  let db1 : DB := { db with tenants := db.tenants ++ [tenant] }
  if eff.hashFails then .error ⟨500, "password hashing failed"⟩
  else
    let passwordHash := hashPassword input.password salt
    if eff.userCreateFails then .error ⟨500, "user insert failed"⟩
    else
      let user : User :=
        { id := userId, tenantId := some tenant.id, email := input.email,
          passwordHash := passwordHash, firstName := input.firstName,
          lastName := input.lastName, role := registerRole input,
          status := .pending, isActive := false }
      .ok ({ db1 with users := db1.users ++ [user] }, (tenant, user))

/-- AuthService.register: reject duplicate emails with 409 before any write,
then create tenant and admin user inside a single transaction; the generated
ids and the bcrypt salt of the run are passed explicitly. -/
def register (eff : TxEff) (db : DB) (input : RegisterInput)
    (tenantId userId : String) (salt : Nat) : Except Err RegisterResult × DB :=
  if (findUserByEmail db input.email).isSome then
    (.error ⟨409, "Email already registered"⟩, db)
  else if (findTenantByEmail db input.email).isSome then
    (.error ⟨409, "Email already registered"⟩, db)
  else
    match runTransaction db (registerTxBody eff input tenantId userId salt) with
    | (.ok (tenant, user), db') =>
      (.ok { message := "Registration successful. Your account is pending approval by a super administrator.",
             user := { id := user.id, email := user.email, firstName := user.firstName,
                       lastName := user.lastName, role := user.role, status := user.status,
                       tenantId := user.tenantId, tenantType := tenant.type,
                       tenantStatus := tenant.status } }, db')
    | (.error e, db') => (.error e, db')

/-! ### Centralized error-translation middleware (middleware/errorHandler.ts) -/

/-- The error classes distinguished by the middleware: Prisma known request
errors by code, Prisma validation errors, Prisma initialization errors, HTTP
errors carrying their own status, and any other thrown error. -/
inductive AppError where
  | prismaKnown (code : String) (message : String)
  | prismaValidation (message : String)
  | prismaInit (message : String)
  | http (statusCode : Nat) (message : String)
  | generic (message : String)
deriving DecidableEq

/-- The JSON error body: message and statusCode, plus a flag recording whether
the development-only fields (stack trace, Prisma code and meta) are present. -/
structure ErrorBody where
  message : String
  statusCode : Nat
  devDetails : Bool
deriving DecidableEq

/-- The switch over Prisma known-request error codes in the middleware. -/
def prismaKnownMapping (code : String) (message : String) : Nat × String :=
  if code == "P2002" then (409, "A record with this information already exists")
  else if code == "P2025" then (404, "Record not found")
  else if code == "P2003" then (400, "Invalid reference to related record")
  else if code == "P2014" then (400, "Required relation missing")
  else if code == "P2021" then (500, "Database table not found")
  else if code == "P2022" then (500, "Database column not found")
  else if code == "P1001" then (503, "Database connection failed")
  else if code == "P1000" then (503, "Database authentication failed")
  else (400, message)

/-- The error-translation middleware, for a request whose headers are not yet
sent; production is the NODE_ENV comparison of the source. -/
def errorHandler (production : Bool) (err : AppError) : ErrorBody :=
  match err with
  | .prismaKnown code message =>
    let sm := prismaKnownMapping code message
    { message := sm.2, statusCode := sm.1, devDetails := !production }
  | .prismaValidation _ =>
    { message := "Invalid data provided", statusCode := 400, devDetails := !production }
  | .prismaInit _ =>
    { message := "Database connection failed. Please try again later.",
      statusCode := 503, devDetails := !production }
  | .http statusCode message =>
    { message := if statusCode == 500 && production then "Internal Server Error" else message,
      statusCode := statusCode, devDetails := !production }
  | .generic message =>
    { message := if production then "Internal Server Error" else message,
      statusCode := 500, devDetails := !production }

/-! ### Role-guard middleware and tenant approval (spec-modelled) -/

/-- The authenticated request state the role guards inspect: the role attached
by the authenticate middleware, absent when no valid token authenticated. -/
structure AuthReq where
  userRole : Option String
  userId : Option String
  tenantId : Option String
deriving DecidableEq

/-- Modelled from the spec: middleware/auth.ts is absent from the source tree
(only its unit tests are present); per the spec the guards check the request
role against a fixed enumeration, answering 401 with no authenticated role and
403 for a role outside the list, passing the request on unchanged otherwise. -/
def requireRole (roles : List String) (req : AuthReq) : Except Err AuthReq :=
  match req.userRole with
  | none => .error ⟨401, "Authentication required"⟩
  | some r => if roles.contains r then .ok req else .error ⟨403, "Insufficient permissions"⟩

/-- Modelled from the spec: requireSuperAdmin admits only the super_admin role. -/
def requireSuperAdmin (req : AuthReq) : Except Err AuthReq :=
  requireRole ["super_admin"] req

/-- Modelled from the spec: requireTenantAdmin admits supplier admins, company
admins and super admins. -/
def requireTenantAdmin (req : AuthReq) : Except Err AuthReq :=
  requireRole ["supplier_admin", "company_admin", "super_admin"] req

/-- The response of the tenant-approval endpoint: a status code and, on
success, the updated tenant. -/
structure ApproveResponse where
  statusCode : Nat
  tenant : Option Tenant
deriving DecidableEq

/-- Modelled from the spec: the tenant-approval service behind
POST /api/v1/admin/tenants/:id/approve is absent from the source tree (only its
integration tests are present).  Per the spec and those tests: an unknown id
answers 404; approval sets the tenant active with isActive true; rejection sets
the status to rejected; both answer 200 with the updated tenant. -/
def approveTenantHandler (db : DB) (tenantId : String) (approved : Bool) :
    ApproveResponse × DB :=
  match findTenantById db tenantId with
  | none => (⟨404, none⟩, db)
  | some t =>
    let t' := if approved then { t with status := TenantStatus.active, isActive := true }
              else { t with status := TenantStatus.rejected, isActive := false }
    (⟨200, some t'⟩,
     { db with tenants := db.tenants.map (fun x => if x.id == tenantId then t' else x) })

/-- Modelled from the spec: the admin route guards the approval handler behind
authentication and the super-admin role check. -/
def approveTenantEndpoint (db : DB) (req : AuthReq) (tenantId : String)
    (approved : Bool) : ApproveResponse × DB :=
  match requireSuperAdmin req with
  | .error e => (⟨e.statusCode, none⟩, db)
  | .ok _ => approveTenantHandler db tenantId approved

/-! ### Helper lemmas -/

theorem renderHash_ne_password (p : String) (s : Nat) :
    renderHash (hashPassword p s) ≠ p := by
  intro h
  have hlen := congrArg String.length h
  simp only [renderHash, hashPassword, String.length_append] at hlen
  have h1 : "$".length = 1 := rfl
  have h2 : "2b".length = 2 := rfl
  rw [h1, h2] at hlen
  omega

theorem contains_iff_mem (l : List String) (x : String) : l.contains x = true ↔ x ∈ l :=
  List.elem_iff

/-! ### C7: password hashing round-trip (spec-modelled bcrypt wrapper) -/

/-- C7: comparePassword accepts exactly the hashed password, case-sensitively;
distinct salts give distinct hashes; every rendered hash matches the bcrypt
format and differs from the plaintext. -/
theorem password_hashing_spec (p q : String) (s s1 s2 : Nat) :
    comparePassword p (hashPassword p s) = true ∧
    (q ≠ p → comparePassword q (hashPassword p s) = false) ∧
    (s1 ≠ s2 → hashPassword p s1 ≠ hashPassword p s2) ∧
    matchesBcryptFormat (renderHash (hashPassword p s)) = true ∧
    renderHash (hashPassword p s) ≠ p := by
  refine ⟨?_, ?_, ?_, ?_, renderHash_ne_password p s⟩
  · simp [comparePassword, hashPassword]
  · intro hne
    simp [comparePassword, hashPassword]
    exact hne
  · intro hne hc
    exact hne (congrArg BcryptHash.salt hc)
  · rfl

theorem password_hashing_spec_witness :
    comparePassword "TestPassword123" (hashPassword "TestPassword123" 3) = true ∧
    comparePassword "testpassword123" (hashPassword "TestPassword123" 3) = false ∧
    hashPassword "TestPassword123" 1 ≠ hashPassword "TestPassword123" 2 := by
  refine ⟨(password_hashing_spec "TestPassword123" "testpassword123" 3 1 2).1,
          (password_hashing_spec "TestPassword123" "testpassword123" 3 1 2).2.1 (by decide),
          (password_hashing_spec "TestPassword123" "testpassword123" 3 1 2).2.2.1 (by decide)⟩

/-! ### C6: JWT round-trip and access/refresh separation (spec-modelled) -/

/-- C6: verifying a generated token of the same family recovers the payload
with all four fields, and under distinct access and refresh secrets each
verifier rejects the other family's tokens. -/
theorem jwt_round_trip_and_separation (env : JwtEnv) (p : TokenPayload)
    (s r : String) (ta tr : SignedToken) :
    (generateAccessToken env p = .ok ta → verifyAccessToken env ta = .ok p) ∧
    (generateRefreshToken env p = .ok tr → verifyRefreshToken env tr = .ok p) ∧
    (env.jwtSecret = some s → env.jwtRefreshSecret = some r → s ≠ r →
      (generateAccessToken env p = .ok ta → (verifyRefreshToken env ta).isOk = false) ∧
      (generateRefreshToken env p = .ok tr → (verifyAccessToken env tr).isOk = false)) := by
  refine ⟨?_, ?_, ?_⟩
  · intro h
    cases hs : env.jwtSecret with
    | none => rw [generateAccessToken, hs] at h; simp at h
    | some sk =>
      rw [generateAccessToken, hs] at h
      cases h
      simp [verifyAccessToken, hs]
  · intro h
    cases hs : env.jwtRefreshSecret with
    | none => rw [generateRefreshToken, hs] at h; simp at h
    | some sk =>
      rw [generateRefreshToken, hs] at h
      cases h
      simp [verifyRefreshToken, hs]
  · intro hs hr hne
    constructor
    · intro h
      rw [generateAccessToken, hs] at h
      cases h
      simp [verifyRefreshToken, hr, beq_eq_false_iff_ne.mpr hne, Except.isOk, Except.toBool]
    · intro h
      rw [generateRefreshToken, hr] at h
      cases h
      simp [verifyAccessToken, hs, beq_eq_false_iff_ne.mpr (Ne.symm hne), Except.isOk,
            Except.toBool]

theorem jwt_round_trip_and_separation_witness :
    verifyAccessToken ⟨some "secret-a", some "secret-r"⟩
      ⟨"secret-a", ⟨"user-123", "tenant-456", "supplier_admin", "supplier"⟩⟩ =
      .ok ⟨"user-123", "tenant-456", "supplier_admin", "supplier"⟩ ∧
    (verifyRefreshToken ⟨some "secret-a", some "secret-r"⟩
      ⟨"secret-a", ⟨"user-123", "tenant-456", "supplier_admin", "supplier"⟩⟩).isOk = false := by
  refine ⟨(jwt_round_trip_and_separation ⟨some "secret-a", some "secret-r"⟩
      ⟨"user-123", "tenant-456", "supplier_admin", "supplier"⟩ "secret-a" "secret-r"
      ⟨"secret-a", ⟨"user-123", "tenant-456", "supplier_admin", "supplier"⟩⟩
      ⟨"secret-r", ⟨"user-123", "tenant-456", "supplier_admin", "supplier"⟩⟩).1 rfl,
    ((jwt_round_trip_and_separation ⟨some "secret-a", some "secret-r"⟩
      ⟨"user-123", "tenant-456", "supplier_admin", "supplier"⟩ "secret-a" "secret-r"
      ⟨"secret-a", ⟨"user-123", "tenant-456", "supplier_admin", "supplier"⟩⟩
      ⟨"secret-r", ⟨"user-123", "tenant-456", "supplier_admin", "supplier"⟩⟩).2.2
      rfl rfl (by decide)).1 rfl⟩

/-! ### C8: role-guard middleware (spec-modelled) -/

/-- C8: requireRole passes the request on unchanged exactly when the
authenticated role is listed, answers 401 with no authenticated role and 403
otherwise; requireSuperAdmin admits only super_admin, and requireTenantAdmin
admits exactly the two tenant-admin roles and super_admin. -/
theorem role_guard_spec (roles : List String) (req : AuthReq) (r : String) :
    (requireRole roles req = .ok req ↔ ∃ x, req.userRole = some x ∧ x ∈ roles) ∧
    (req.userRole = none →
      requireRole roles req = .error ⟨401, "Authentication required"⟩) ∧
    (req.userRole = some r → r ∉ roles →
      requireRole roles req = .error ⟨403, "Insufficient permissions"⟩) ∧
    (requireSuperAdmin req = .ok req ↔ req.userRole = some "super_admin") ∧
    (requireTenantAdmin req = .ok req ↔
      (req.userRole = some "supplier_admin" ∨ req.userRole = some "company_admin" ∨
       req.userRole = some "super_admin")) := by
  refine ⟨?_, ?_, ?_, ?_, ?_⟩
  · cases hu : req.userRole with
    | none => simp [requireRole, hu]
    | some x =>
      by_cases hm : x ∈ roles
      · simp [requireRole, hu, (contains_iff_mem roles x).mpr hm, hm]
      · have hc : roles.contains x = false := by
          cases h : roles.contains x
          · rfl
          · exact absurd ((contains_iff_mem roles x).mp h) hm
        simp [requireRole, hu, hc, hm]
  · intro hu; simp [requireRole, hu]
  · intro hu hm
    have hc : roles.contains r = false := by
      cases h : roles.contains r
      · rfl
      · exact absurd ((contains_iff_mem roles r).mp h) hm
    simp only [requireRole, hu]
    rw [hc]
    rfl
  · cases hu : req.userRole with
    | none => simp [requireSuperAdmin, requireRole, hu]
    | some x =>
      by_cases hx : x = "super_admin"
      · simp [requireSuperAdmin, requireRole, hu, hx]
      · simp [requireSuperAdmin, requireRole, hu, hx, List.contains,
              beq_eq_false_iff_ne.mpr hx]
  · cases hu : req.userRole with
    | none => simp [requireTenantAdmin, requireRole, hu]
    | some x =>
      by_cases h1 : x = "supplier_admin"
      · simp [requireTenantAdmin, requireRole, hu, h1]
      · by_cases h2 : x = "company_admin"
        · simp [requireTenantAdmin, requireRole, hu, h2]
        · by_cases h3 : x = "super_admin"
          · simp [requireTenantAdmin, requireRole, hu, h3]
          · simp [requireTenantAdmin, requireRole, hu, h1, h2, h3, List.contains,
                  beq_eq_false_iff_ne.mpr h1, beq_eq_false_iff_ne.mpr h2,
                  beq_eq_false_iff_ne.mpr h3]

theorem role_guard_spec_witness :
    requireRole ["supplier_admin", "company_admin"] ⟨some "supplier_staff", none, none⟩ =
      .error ⟨403, "Insufficient permissions"⟩ ∧
    requireTenantAdmin ⟨some "company_admin", none, none⟩ =
      .ok ⟨some "company_admin", none, none⟩ := by
  refine ⟨(role_guard_spec ["supplier_admin", "company_admin"]
      ⟨some "supplier_staff", none, none⟩ "supplier_staff").2.2.1 rfl (by decide),
    (role_guard_spec ["supplier_admin", "company_admin", "super_admin"]
      ⟨some "company_admin", none, none⟩ "company_admin").2.2.2.2.mpr (Or.inr (Or.inl rfl))⟩

/-! ### C3: centralized error-translation middleware -/

/-- C3, counterexample to the claim as stated: the Prisma known-request code
P2021 (table does not exist) is mapped to 500, not to the 400 the claim
predicts for every code outside its enumerated list. -/
theorem errorHandler_p2021_not_400 :
    (errorHandler true (AppError.prismaKnown "P2021" "boom")).statusCode = 500 ∧
    ¬ (errorHandler true (AppError.prismaKnown "P2021" "boom")).statusCode = 400 := by
  exact ⟨rfl, by decide⟩

/-- C3, amended: the middleware maps P2002 to 409, P2025 to 404, P2003 to 400,
P1001 and P1000 to 503, and of the remaining known codes P2014 to 400 but P2021
and P2022 to 500 with fixed sanitized messages, every other known code to 400
with the error's own message; an HTTP error keeps its own status code and any
other error becomes 500; in production the body never carries the
development-only details, and a generic 500 body carries the message Internal
Server Error in place of the original message. -/
theorem errorHandler_mapping (production : Bool) (code msg m : String) (sc : Nat) :
    errorHandler production (.prismaKnown "P2002" msg) =
      ⟨"A record with this information already exists", 409, !production⟩ ∧
    errorHandler production (.prismaKnown "P2025" msg) = ⟨"Record not found", 404, !production⟩ ∧
    errorHandler production (.prismaKnown "P2003" msg) =
      ⟨"Invalid reference to related record", 400, !production⟩ ∧
    errorHandler production (.prismaKnown "P2014" msg) =
      ⟨"Required relation missing", 400, !production⟩ ∧
    errorHandler production (.prismaKnown "P2021" msg) =
      ⟨"Database table not found", 500, !production⟩ ∧
    errorHandler production (.prismaKnown "P2022" msg) =
      ⟨"Database column not found", 500, !production⟩ ∧
    errorHandler production (.prismaKnown "P1001" msg) =
      ⟨"Database connection failed", 503, !production⟩ ∧
    errorHandler production (.prismaKnown "P1000" msg) =
      ⟨"Database authentication failed", 503, !production⟩ ∧
    (code ∉ ["P2002", "P2025", "P2003", "P2014", "P2021", "P2022", "P1001", "P1000"] →
      errorHandler production (.prismaKnown code msg) = ⟨msg, 400, !production⟩) ∧
    errorHandler production (.http sc m) =
      ⟨if sc == 500 && production then "Internal Server Error" else m, sc, !production⟩ ∧
    errorHandler production (.generic m) =
      ⟨if production then "Internal Server Error" else m, 500, !production⟩ ∧
    (∀ e : AppError, (errorHandler true e).devDetails = false) := by
  refine ⟨rfl, rfl, rfl, rfl, rfl, rfl, rfl, rfl, ?_, rfl, rfl, ?_⟩
  · intro hmem
    simp only [List.mem_cons, List.not_mem_nil, or_false, not_or] at hmem
    obtain ⟨h1, h2, h3, h4, h5, h6, h7, h8⟩ := hmem
    simp [errorHandler, prismaKnownMapping, beq_eq_false_iff_ne.mpr h1,
          beq_eq_false_iff_ne.mpr h2, beq_eq_false_iff_ne.mpr h3,
          beq_eq_false_iff_ne.mpr h4, beq_eq_false_iff_ne.mpr h5,
          beq_eq_false_iff_ne.mpr h6, beq_eq_false_iff_ne.mpr h7,
          beq_eq_false_iff_ne.mpr h8]
  · intro e
    cases e <;> simp [errorHandler]

theorem errorHandler_mapping_witness :
    errorHandler true (AppError.prismaKnown "P9999" "some database detail") =
      ⟨"some database detail", 400, false⟩ := by
  have h := (errorHandler_mapping true "P9999" "some database detail" "m" 0).2.2.2.2.2.2.2.2.1
    (by decide)
  simpa using h

/-! ### C5: tenant-approval endpoint (spec-modelled) -/

theorem find_map_update {l : List Tenant} {tid : String} {t t' : Tenant}
    (h : l.find? (fun x => x.id == tid) = some t) (hid : t'.id = tid) :
    (l.map (fun x => if x.id == tid then t' else x)).find? (fun x => x.id == tid) =
      some t' := by
  induction l with
  | nil => simp at h
  | cons a l ih =>
    by_cases ha : a.id = tid
    · simp [List.find?, ha, hid]
    · have hab : (a.id == tid) = false := beq_eq_false_iff_ne.mpr ha
      rw [List.find?_cons_of_neg _ (by simp [hab])] at h
      simp only [List.map_cons]
      rw [if_neg (by simp [hab])]
      rw [List.find?_cons_of_neg _ (by simp [hab])]
      exact ih h

/-- C5: with a super-admin role the approval endpoint answers 200 and leaves an
existing tenant active with isActive true on approval, rejected on refusal;
an unknown tenant id answers 404; an unauthenticated request answers 401 and a
non-super-admin role answers 403, in both cases leaving the database unchanged. -/
theorem approve_endpoint_spec (db : DB) (req : AuthReq) (tid : String) (t : Tenant)
    (r : String) (approved : Bool) :
    (req.userRole = none →
      (approveTenantEndpoint db req tid approved).1.statusCode = 401 ∧
      (approveTenantEndpoint db req tid approved).2 = db) ∧
    (req.userRole = some r → r ≠ "super_admin" →
      (approveTenantEndpoint db req tid approved).1.statusCode = 403 ∧
      (approveTenantEndpoint db req tid approved).2 = db) ∧
    (req.userRole = some "super_admin" → findTenantById db tid = none →
      (approveTenantEndpoint db req tid approved).1.statusCode = 404 ∧
      (approveTenantEndpoint db req tid approved).2 = db) ∧
    (req.userRole = some "super_admin" → findTenantById db tid = some t →
      t.status = TenantStatus.pending →
      (approveTenantEndpoint db req tid true).1.statusCode = 200 ∧
      findTenantById (approveTenantEndpoint db req tid true).2 tid =
        some { t with status := TenantStatus.active, isActive := true } ∧
      (approveTenantEndpoint db req tid false).1.statusCode = 200 ∧
      findTenantById (approveTenantEndpoint db req tid false).2 tid =
        some { t with status := TenantStatus.rejected, isActive := false }) := by
  have hsuper : ∀ ap : Bool, req.userRole = some "super_admin" →
      approveTenantEndpoint db req tid ap = approveTenantHandler db tid ap := by
    intro ap hu
    simp [approveTenantEndpoint, requireSuperAdmin, requireRole, hu]
  refine ⟨?_, ?_, ?_, ?_⟩
  · intro hu
    simp [approveTenantEndpoint, requireSuperAdmin, requireRole, hu]
  · intro hu hr
    simp [approveTenantEndpoint, requireSuperAdmin, requireRole, hu, hr]
  · intro hu hf
    rw [hsuper approved hu]
    simp [approveTenantHandler, hf]
  · intro hu hf _
    have hid : t.id = tid := by
      have := List.find?_some hf
      simpa using this
    have hf' : List.find? (fun x => x.id == tid) db.tenants = some t := hf
    have handler_db : ∀ ap : Bool,
        (approveTenantHandler db tid ap).2.tenants =
          db.tenants.map (fun x => if x.id == tid then
              (if ap then { t with status := TenantStatus.active, isActive := true }
               else { t with status := TenantStatus.rejected, isActive := false }) else x) ∧
        (approveTenantHandler db tid ap).1.statusCode = 200 := by
      intro ap
      cases ap <;> simp [approveTenantHandler, hf]
    rw [hsuper true hu, hsuper false hu]
    refine ⟨(handler_db true).2, ?_, (handler_db false).2, ?_⟩
    · simp only [findTenantById]
      rw [(handler_db true).1]
      simp only [if_true]
      exact find_map_update hf' (by simpa using hid)
    · simp only [findTenantById]
      rw [(handler_db false).1]
      simp only [Bool.false_eq_true, if_false]
      exact find_map_update hf' (by simpa using hid)

theorem approve_endpoint_spec_witness :
    (approveTenantEndpoint ⟨[⟨"t1", "T", TenantType.supplier, "t@x.com",
        TenantStatus.pending, false⟩], []⟩
      ⟨some "super_admin", some "u1", none⟩ "t1" true).1.statusCode = 200 ∧
    findTenantById (approveTenantEndpoint ⟨[⟨"t1", "T", TenantType.supplier, "t@x.com",
        TenantStatus.pending, false⟩], []⟩
      ⟨some "super_admin", some "u1", none⟩ "t1" true).2 "t1" =
      some ⟨"t1", "T", TenantType.supplier, "t@x.com", TenantStatus.active, true⟩ ∧
    (approveTenantEndpoint ⟨[⟨"t1", "T", TenantType.supplier, "t@x.com",
        TenantStatus.pending, false⟩], []⟩
      ⟨none, none, none⟩ "t1" true).1.statusCode = 401 := by
  have h := approve_endpoint_spec ⟨[⟨"t1", "T", TenantType.supplier, "t@x.com",
      TenantStatus.pending, false⟩], []⟩
    ⟨some "super_admin", some "u1", none⟩ "t1"
    ⟨"t1", "T", TenantType.supplier, "t@x.com", TenantStatus.pending, false⟩ "x" true
  have h2 := approve_endpoint_spec ⟨[⟨"t1", "T", TenantType.supplier, "t@x.com",
      TenantStatus.pending, false⟩], []⟩
    ⟨none, none, none⟩ "t1"
    ⟨"t1", "T", TenantType.supplier, "t@x.com", TenantStatus.pending, false⟩ "x" true
  exact ⟨(h.2.2.2 rfl rfl rfl).1, (h.2.2.2 rfl rfl rfl).2.1, (h2.1 rfl).1⟩

/-! ### Login helper lemmas -/

theorem login_of_no_user {env : JwtEnv} {db : DB} {input : LoginInput}
    (h : findUserByEmail db input.email = none) :
    login env db input = .error ⟨401, "Invalid email or password"⟩ := by
  simp [login, h]

theorem login_of_bad_password {env : JwtEnv} {db : DB} {input : LoginInput} {u : User}
    (hu : findUserByEmail db input.email = some u)
    (hp : comparePassword input.password u.passwordHash = false) :
    login env db input = .error ⟨401, "Invalid email or password"⟩ := by
  simp [login, hu, hp]

theorem loginSuperAdmin_isOk_iff (env : JwtEnv) (u : User) :
    (loginSuperAdmin env u).isOk = true ↔
      (u.status = UserStatus.active ∧ u.isActive = true ∧
       env.jwtSecret.isSome = true ∧ env.jwtRefreshSecret.isSome = true) := by
  unfold loginSuperAdmin
  cases hs : env.jwtSecret <;> cases hr : env.jwtRefreshSecret <;>
    cases hst : u.status <;> cases hac : u.isActive <;>
      simp [generateAccessToken, generateRefreshToken, hs, hr, hst, hac,
            Except.isOk, Except.toBool]

theorem loginTenantUser_isOk_iff (env : JwtEnv) (db : DB) (u : User) :
    (loginTenantUser env db u).isOk = true ↔
      ((∃ t, userTenant db u = some t ∧ t.status = TenantStatus.active ∧ t.isActive = true) ∧
       u.status = UserStatus.active ∧ u.isActive = true ∧
       env.jwtSecret.isSome = true ∧ env.jwtRefreshSecret.isSome = true) := by
  unfold loginTenantUser
  cases hT : userTenant db u with
  | none => simp [Except.isOk, Except.toBool]
  | some t =>
    cases hs : env.jwtSecret <;> cases hr : env.jwtRefreshSecret <;>
      cases hst : u.status <;> cases hac : u.isActive <;>
        cases hts : t.status <;> cases htac : t.isActive <;>
          simp [generateAccessToken, generateRefreshToken, hs, hr, hst, hac, hts, htac,
                Except.isOk, Except.toBool]

theorem login_403_of_tenant_inactive {env : JwtEnv} {db : DB} {input : LoginInput}
    {u : User} {t : Tenant}
    (hu : findUserByEmail db input.email = some u)
    (hp : comparePassword input.password u.passwordHash = true)
    (hr : u.role ≠ "super_admin")
    (ht : userTenant db u = some t)
    (hs : t.status ≠ TenantStatus.active ∨ t.isActive = false) :
    login env db input =
      .error ⟨403, "Your company/supplier account is pending approval by a super administrator"⟩ := by
  have hcond : (t.status != TenantStatus.active || !t.isActive) = true := by
    rcases hs with h | h
    · simp [bne_iff_ne, h]
    · simp [h]
  simp [login, hu, hp, beq_eq_false_iff_ne.mpr hr, loginTenantUser, ht, hcond]

theorem login_403_of_user_inactive {env : JwtEnv} {db : DB} {input : LoginInput} {u : User}
    (hu : findUserByEmail db input.email = some u)
    (hp : comparePassword input.password u.passwordHash = true)
    (hs : u.status ≠ UserStatus.active ∨ u.isActive = false) :
    ∃ m, login env db input = .error ⟨403, m⟩ := by
  have hcond : (u.status != UserStatus.active || !u.isActive) = true := by
    rcases hs with h | h
    · simp [bne_iff_ne, h]
    · simp [h]
  by_cases hr : u.role = "super_admin"
  · exact ⟨"Account is pending approval or inactive",
      by simp [login, hu, hp, hr, loginSuperAdmin, hcond]⟩
  · have hrb : (u.role == "super_admin") = false := beq_eq_false_iff_ne.mpr hr
    cases hT : userTenant db u with
    | none => exact ⟨"User account is invalid",
        by simp [login, hu, hp, hrb, loginTenantUser, hT]⟩
    | some t =>
      by_cases htc : (t.status != TenantStatus.active || !t.isActive) = true
      · exact ⟨"Your company/supplier account is pending approval by a super administrator",
          by simp [login, hu, hp, hrb, loginTenantUser, hT, htc]⟩
      · have htc' : (t.status != TenantStatus.active || !t.isActive) = false :=
          Bool.not_eq_true _ ▸ Bool.of_not_eq_true htc
        exact ⟨"Your user account is pending approval by your organization administrator",
          by simp [login, hu, hp, hrb, loginTenantUser, hT, htc', hcond]⟩

theorem login_isOk_iff (env : JwtEnv) (db : DB) (input : LoginInput) :
    (login env db input).isOk = true ↔
      ∃ u, findUserByEmail db input.email = some u ∧
        comparePassword input.password u.passwordHash = true ∧
        u.status = UserStatus.active ∧ u.isActive = true ∧
        env.jwtSecret.isSome = true ∧ env.jwtRefreshSecret.isSome = true ∧
        (u.role = "super_admin" ∨
          ∃ t, userTenant db u = some t ∧ t.status = TenantStatus.active ∧
            t.isActive = true) := by
  cases hu : findUserByEmail db input.email with
  | none => simp [login, hu, Except.isOk, Except.toBool]
  | some u =>
    cases hp : comparePassword input.password u.passwordHash with
    | false => simp [login, hu, hp, Except.isOk, Except.toBool]
    | true =>
      by_cases hr : u.role = "super_admin"
      · simp only [login, hu, hp, Bool.not_true, Bool.false_eq_true, if_false,
                   hr, beq_self_eq_true, if_true]
        rw [loginSuperAdmin_isOk_iff]
        constructor
        · rintro ⟨h1, h2, h3, h4⟩
          exact ⟨u, rfl, hp, h1, h2, h3, h4, Or.inl hr⟩
        · rintro ⟨u', hu', _, h1, h2, h3, h4, _⟩
          cases hu'
          exact ⟨h1, h2, h3, h4⟩
      · have hrb : (u.role == "super_admin") = false := beq_eq_false_iff_ne.mpr hr
        simp only [login, hu, hp, Bool.not_true, Bool.false_eq_true, if_false, hrb]
        rw [loginTenantUser_isOk_iff]
        constructor
        · rintro ⟨⟨t, ht, ht1, ht2⟩, h1, h2, h3, h4⟩
          exact ⟨u, rfl, hp, h1, h2, h3, h4, Or.inr ⟨t, ht, ht1, ht2⟩⟩
        · rintro ⟨u', hu', _, h1, h2, h3, h4, hor⟩
          cases hu'
          rcases hor with h | h
          · exact absurd h hr
          · exact ⟨h, h1, h2, h3, h4⟩

/-! ### C1: login access control -/

/-- C1, counterexample to the claim as stated: a super-admin user whose linked
tenant is still pending logs in successfully, because the super-admin branch of
AuthService.login never consults the tenant; the claim demands a 403 whenever
the user's tenant has a status other than active. -/
theorem login_super_admin_bypasses_tenant_check :
    (findUserByEmail
        ⟨[⟨"t1", "T", TenantType.supplier, "t@x.com", TenantStatus.pending, false⟩],
         [⟨"u1", some "t1", "sa@x.com", hashPassword "pw" 0, none, none, "super_admin",
           UserStatus.active, true⟩]⟩ "sa@x.com" =
      some ⟨"u1", some "t1", "sa@x.com", hashPassword "pw" 0, none, none, "super_admin",
        UserStatus.active, true⟩) ∧
    comparePassword "pw" (hashPassword "pw" 0) = true ∧
    (userTenant
        ⟨[⟨"t1", "T", TenantType.supplier, "t@x.com", TenantStatus.pending, false⟩],
         [⟨"u1", some "t1", "sa@x.com", hashPassword "pw" 0, none, none, "super_admin",
           UserStatus.active, true⟩]⟩
        ⟨"u1", some "t1", "sa@x.com", hashPassword "pw" 0, none, none, "super_admin",
          UserStatus.active, true⟩ =
      some ⟨"t1", "T", TenantType.supplier, "t@x.com", TenantStatus.pending, false⟩) ∧
    TenantStatus.pending ≠ TenantStatus.active ∧
    (login ⟨some "s1", some "s2"⟩
        ⟨[⟨"t1", "T", TenantType.supplier, "t@x.com", TenantStatus.pending, false⟩],
         [⟨"u1", some "t1", "sa@x.com", hashPassword "pw" 0, none, none, "super_admin",
           UserStatus.active, true⟩]⟩ ⟨"sa@x.com", "pw"⟩).isOk = true := by
  exact ⟨rfl, rfl, rfl, by decide, rfl⟩

/-- C1, amended: login answers 401 for an unknown email or a wrong password;
for a non-super-admin user whose linked tenant has a status other than active
or isActive false it answers 403, and 403 whenever the user itself is not
active; tokens are returned exactly when the password matches, the user is
active, and either the user is a super admin (whose branch never consults the
tenant) or its linked tenant is active, the JWT secrets being configured. -/
theorem login_access_control (env : JwtEnv) (db : DB) (input : LoginInput) :
    (findUserByEmail db input.email = none →
      login env db input = .error ⟨401, "Invalid email or password"⟩) ∧
    (∀ u, findUserByEmail db input.email = some u →
      comparePassword input.password u.passwordHash = false →
      login env db input = .error ⟨401, "Invalid email or password"⟩) ∧
    (∀ u t, findUserByEmail db input.email = some u →
      comparePassword input.password u.passwordHash = true →
      u.role ≠ "super_admin" → userTenant db u = some t →
      (t.status ≠ TenantStatus.active ∨ t.isActive = false) →
      ∃ m, login env db input = .error ⟨403, m⟩) ∧
    (∀ u, findUserByEmail db input.email = some u →
      comparePassword input.password u.passwordHash = true →
      (u.status ≠ UserStatus.active ∨ u.isActive = false) →
      ∃ m, login env db input = .error ⟨403, m⟩) ∧
    ((login env db input).isOk = true ↔
      ∃ u, findUserByEmail db input.email = some u ∧
        comparePassword input.password u.passwordHash = true ∧
        u.status = UserStatus.active ∧ u.isActive = true ∧
        env.jwtSecret.isSome = true ∧ env.jwtRefreshSecret.isSome = true ∧
        (u.role = "super_admin" ∨
          ∃ t, userTenant db u = some t ∧ t.status = TenantStatus.active ∧
            t.isActive = true)) := by
  refine ⟨login_of_no_user, fun u hu hp => login_of_bad_password hu hp,
    fun u t hu hp hr ht hs => ⟨_, login_403_of_tenant_inactive hu hp hr ht hs⟩,
    fun u hu hp hs => login_403_of_user_inactive hu hp hs,
    login_isOk_iff env db input⟩

theorem login_access_control_witness :
    (∃ m, login ⟨some "s1", some "s2"⟩
        ⟨[⟨"t1", "T", TenantType.company, "t@x.com", TenantStatus.pending, false⟩],
         [⟨"u1", some "t1", "co@x.com", hashPassword "pw" 0, none, none, "company_admin",
           UserStatus.active, true⟩]⟩ ⟨"co@x.com", "pw"⟩ = .error ⟨403, m⟩) ∧
    (login ⟨some "s1", some "s2"⟩
        ⟨[⟨"t1", "T", TenantType.company, "t@x.com", TenantStatus.pending, false⟩],
         [⟨"u1", some "t1", "co@x.com", hashPassword "pw" 0, none, none, "company_admin",
           UserStatus.active, true⟩]⟩ ⟨"zz@x.com", "pw"⟩ =
      .error ⟨401, "Invalid email or password"⟩) := by
  have h := login_access_control ⟨some "s1", some "s2"⟩
    ⟨[⟨"t1", "T", TenantType.company, "t@x.com", TenantStatus.pending, false⟩],
     [⟨"u1", some "t1", "co@x.com", hashPassword "pw" 0, none, none, "company_admin",
       UserStatus.active, true⟩]⟩ ⟨"co@x.com", "pw"⟩
  have h2 := login_access_control ⟨some "s1", some "s2"⟩
    ⟨[⟨"t1", "T", TenantType.company, "t@x.com", TenantStatus.pending, false⟩],
     [⟨"u1", some "t1", "co@x.com", hashPassword "pw" 0, none, none, "company_admin",
       UserStatus.active, true⟩]⟩ ⟨"zz@x.com", "pw"⟩
  exact ⟨h.2.2.1
    ⟨"u1", some "t1", "co@x.com", hashPassword "pw" 0, none, none, "company_admin",
      UserStatus.active, true⟩
    ⟨"t1", "T", TenantType.company, "t@x.com", TenantStatus.pending, false⟩
    rfl rfl (by decide) rfl (Or.inl (by decide)), h2.1 rfl⟩

/-! ### C9: login reveals nothing about which credential failed -/

/-- C9: an unknown email and a known email with a wrong password produce the
same 401 error with the identical message, and in particular a pending or
inactive account probed with a wrong password receives this 401, never the
403 pending-approval answer. -/
theorem login_uniform_401 (env : JwtEnv) (db : DB) (input : LoginInput) :
    (findUserByEmail db input.email = none →
      login env db input = .error ⟨401, "Invalid email or password"⟩) ∧
    (∀ u, findUserByEmail db input.email = some u →
      comparePassword input.password u.passwordHash = false →
      login env db input = .error ⟨401, "Invalid email or password"⟩) ∧
    (∀ u, findUserByEmail db input.email = some u →
      comparePassword input.password u.passwordHash = false →
      u.status ≠ UserStatus.active →
      login env db input = .error ⟨401, "Invalid email or password"⟩) := by
  exact ⟨login_of_no_user, fun u hu hp => login_of_bad_password hu hp,
    fun u hu hp _ => login_of_bad_password hu hp⟩

theorem login_uniform_401_witness :
    (login ⟨some "s1", some "s2"⟩
        ⟨[], [⟨"u1", some "t1", "pend@x.com", hashPassword "pw" 0, none, none,
          "company_admin", UserStatus.pending, false⟩]⟩ ⟨"zz@x.com", "pw"⟩ =
      .error ⟨401, "Invalid email or password"⟩) ∧
    (login ⟨some "s1", some "s2"⟩
        ⟨[], [⟨"u1", some "t1", "pend@x.com", hashPassword "pw" 0, none, none,
          "company_admin", UserStatus.pending, false⟩]⟩ ⟨"pend@x.com", "wrong"⟩ =
      .error ⟨401, "Invalid email or password"⟩) := by
  refine ⟨(login_uniform_401 ⟨some "s1", some "s2"⟩
      ⟨[], [⟨"u1", some "t1", "pend@x.com", hashPassword "pw" 0, none, none,
        "company_admin", UserStatus.pending, false⟩]⟩ ⟨"zz@x.com", "pw"⟩).1 rfl,
    (login_uniform_401 ⟨some "s1", some "s2"⟩
      ⟨[], [⟨"u1", some "t1", "pend@x.com", hashPassword "pw" 0, none, none,
        "company_admin", UserStatus.pending, false⟩]⟩ ⟨"pend@x.com", "wrong"⟩).2.2
      ⟨"u1", some "t1", "pend@x.com", hashPassword "pw" 0, none, none,
        "company_admin", UserStatus.pending, false⟩ rfl rfl (by decide)⟩

/-! ### Register helper lemmas: one equation per branch of the control flow -/

theorem register_eq_dup_user {eff : TxEff} {db : DB} {input : RegisterInput}
    {tid uid : String} {salt : Nat}
    (h1 : (findUserByEmail db input.email).isSome = true) :
    register eff db input tid uid salt = (.error ⟨409, "Email already registered"⟩, db) := by
  simp [register, h1]

theorem register_eq_dup_tenant {eff : TxEff} {db : DB} {input : RegisterInput}
    {tid uid : String} {salt : Nat}
    (h1 : (findUserByEmail db input.email).isSome = false)
    (h2 : (findTenantByEmail db input.email).isSome = true) :
    register eff db input tid uid salt = (.error ⟨409, "Email already registered"⟩, db) := by
  simp [register, h1, h2]

theorem register_eq_hash_fail {eff : TxEff} {db : DB} {input : RegisterInput}
    {tid uid : String} {salt : Nat}
    (h1 : (findUserByEmail db input.email).isSome = false)
    (h2 : (findTenantByEmail db input.email).isSome = false)
    (hh : eff.hashFails = true) :
    register eff db input tid uid salt = (.error ⟨500, "password hashing failed"⟩, db) := by
  simp [register, runTransaction, registerTxBody, h1, h2, hh]

theorem register_eq_create_fail {eff : TxEff} {db : DB} {input : RegisterInput}
    {tid uid : String} {salt : Nat}
    (h1 : (findUserByEmail db input.email).isSome = false)
    (h2 : (findTenantByEmail db input.email).isSome = false)
    (hh : eff.hashFails = false) (hc : eff.userCreateFails = true) :
    register eff db input tid uid salt = (.error ⟨500, "user insert failed"⟩, db) := by
  simp [register, runTransaction, registerTxBody, h1, h2, hh, hc]

theorem register_eq_clean {eff : TxEff} {db : DB} {input : RegisterInput}
    {tid uid : String} {salt : Nat}
    (h1 : (findUserByEmail db input.email).isSome = false)
    (h2 : (findTenantByEmail db input.email).isSome = false)
    (hh : eff.hashFails = false) (hc : eff.userCreateFails = false) :
    register eff db input tid uid salt =
      (.ok { message := "Registration successful. Your account is pending approval by a super administrator.",
             user := { id := uid, email := input.email, firstName := input.firstName,
                       lastName := input.lastName, role := registerRole input,
                       status := UserStatus.pending, tenantId := some tid,
                       tenantType := input.tenantType,
                       tenantStatus := TenantStatus.pending } },
       ⟨db.tenants ++ [⟨tid, input.tenantName, input.tenantType, input.email,
                        TenantStatus.pending, false⟩],
        db.users ++ [⟨uid, some tid, input.email, hashPassword input.password salt,
                      input.firstName, input.lastName, registerRole input,
                      UserStatus.pending, false⟩]⟩) := by
  simp [register, runTransaction, registerTxBody, h1, h2, hh, hc]

theorem register_ok_inversion {eff : TxEff} {db : DB} {input : RegisterInput}
    {tid uid : String} {salt : Nat} {res : RegisterResult} {db' : DB}
    (h : register eff db input tid uid salt = (.ok res, db')) :
    (findUserByEmail db input.email).isSome = false ∧
    (findTenantByEmail db input.email).isSome = false ∧
    eff.hashFails = false ∧ eff.userCreateFails = false := by
  by_cases h1 : (findUserByEmail db input.email).isSome = true
  · rw [register_eq_dup_user h1] at h
    simp at h
  · have h1' : (findUserByEmail db input.email).isSome = false := by simpa using h1
    by_cases h2 : (findTenantByEmail db input.email).isSome = true
    · rw [register_eq_dup_tenant h1' h2] at h
      simp at h
    · have h2' : (findTenantByEmail db input.email).isSome = false := by simpa using h2
      cases hh : eff.hashFails with
      | true => rw [register_eq_hash_fail h1' h2' hh] at h; simp at h
      | false =>
        cases hc : eff.userCreateFails with
        | true => rw [register_eq_create_fail h1' h2' hh hc] at h; simp at h
        | false => exact ⟨h1', h2', rfl, rfl⟩

/-! ### C2: registration creates pending records, duplicates answer 409 -/

/-- C2: a successful registration creates exactly one tenant and one user, both
with status pending and isActive false, and returns the pending-approval
message with the created user and no tokens (the result type carries none);
an email already present among users or tenants answers 409 with the database
unchanged. -/
theorem register_pending_and_duplicate (eff : TxEff) (db : DB) (input : RegisterInput)
    (tid uid : String) (salt : Nat) :
    (((findUserByEmail db input.email).isSome = true ∨
       (findTenantByEmail db input.email).isSome = true) →
      register eff db input tid uid salt = (.error ⟨409, "Email already registered"⟩, db)) ∧
    (∀ res db', register eff db input tid uid salt = (.ok res, db') →
      res.message =
        "Registration successful. Your account is pending approval by a super administrator." ∧
      res.user.status = UserStatus.pending ∧
      res.user.tenantStatus = TenantStatus.pending ∧
      ∃ t u, db'.tenants = db.tenants ++ [t] ∧ db'.users = db.users ++ [u] ∧
        t.status = TenantStatus.pending ∧ t.isActive = false ∧
        u.status = UserStatus.pending ∧ u.isActive = false ∧
        u.tenantId = some t.id) := by
  constructor
  · intro h
    by_cases h1 : (findUserByEmail db input.email).isSome = true
    · exact register_eq_dup_user h1
    · have h1' : (findUserByEmail db input.email).isSome = false := by simpa using h1
      rcases h with h | h
      · exact absurd h h1
      · exact register_eq_dup_tenant h1' h
  · intro res db' h
    obtain ⟨h1, h2, hh, hc⟩ := register_ok_inversion h
    rw [register_eq_clean h1 h2 hh hc] at h
    simp only [Prod.mk.injEq, Except.ok.injEq] at h
    obtain ⟨hres, hdb⟩ := h
    subst hres
    subst hdb
    exact ⟨rfl, rfl, rfl,
      ⟨tid, input.tenantName, input.tenantType, input.email, TenantStatus.pending, false⟩,
      ⟨uid, some tid, input.email, hashPassword input.password salt, input.firstName,
        input.lastName, registerRole input, UserStatus.pending, false⟩,
      rfl, rfl, rfl, rfl, rfl, rfl, rfl⟩

theorem register_pending_and_duplicate_witness :
    register ⟨false, false⟩ ⟨[], [⟨"u0", none, "dup@x.com", hashPassword "p" 0, none, none,
        "super_admin", UserStatus.active, true⟩]⟩
      ⟨"Acme", TenantType.supplier, "dup@x.com", "pw", none, none, none⟩ "t1" "u1" 0 =
      (.error ⟨409, "Email already registered"⟩,
       ⟨[], [⟨"u0", none, "dup@x.com", hashPassword "p" 0, none, none,
         "super_admin", UserStatus.active, true⟩]⟩) ∧
    (∃ res db', register ⟨false, false⟩ ⟨[], []⟩
        ⟨"Acme", TenantType.supplier, "new@x.com", "pw", none, none, none⟩
        "t1" "u1" 0 = (.ok res, db') ∧
      res.user.status = UserStatus.pending ∧
      res.user.tenantStatus = TenantStatus.pending) := by
  constructor
  · exact (register_pending_and_duplicate ⟨false, false⟩
      ⟨[], [⟨"u0", none, "dup@x.com", hashPassword "p" 0, none, none,
        "super_admin", UserStatus.active, true⟩]⟩
      ⟨"Acme", TenantType.supplier, "dup@x.com", "pw", none, none, none⟩ "t1" "u1" 0).1
      (Or.inl rfl)
  · have heq := @register_eq_clean ⟨false, false⟩ ⟨[], []⟩
      ⟨"Acme", TenantType.supplier, "new@x.com", "pw", none, none, none⟩
      "t1" "u1" 0 rfl rfl rfl rfl
    have hc2 := (register_pending_and_duplicate ⟨false, false⟩ ⟨[], []⟩
      ⟨"Acme", TenantType.supplier, "new@x.com", "pw", none, none, none⟩ "t1" "u1" 0).2
      _ _ heq
    exact ⟨_, _, heq, hc2.2.1, hc2.2.2.1⟩

/-! ### C4: the registration transaction is atomic -/

/-- C4: registration either appends exactly one tenant and one linked user (and
only then reports success), or leaves the database exactly as it was; in
particular a failing hash step or user insert rolls the transaction back. -/
theorem register_transaction_atomicity (eff : TxEff) (db : DB) (input : RegisterInput)
    (tid uid : String) (salt : Nat) :
    ((∃ t u, (register eff db input tid uid salt).2.tenants = db.tenants ++ [t] ∧
        (register eff db input tid uid salt).2.users = db.users ++ [u] ∧
        u.tenantId = some t.id ∧
        (register eff db input tid uid salt).1.isOk = true) ∨
     ((register eff db input tid uid salt).2 = db ∧
      (register eff db input tid uid salt).1.isOk = false)) ∧
    ((eff.hashFails = true ∨ eff.userCreateFails = true) →
      (register eff db input tid uid salt).2 = db ∧
      (register eff db input tid uid salt).1.isOk = false) := by
  by_cases h1 : (findUserByEmail db input.email).isSome = true
  · rw [register_eq_dup_user h1]
    exact ⟨Or.inr ⟨rfl, rfl⟩, fun _ => ⟨rfl, rfl⟩⟩
  · have h1' : (findUserByEmail db input.email).isSome = false := by simpa using h1
    by_cases h2 : (findTenantByEmail db input.email).isSome = true
    · rw [register_eq_dup_tenant h1' h2]
      exact ⟨Or.inr ⟨rfl, rfl⟩, fun _ => ⟨rfl, rfl⟩⟩
    · have h2' : (findTenantByEmail db input.email).isSome = false := by simpa using h2
      cases hh : eff.hashFails with
      | true =>
        rw [register_eq_hash_fail h1' h2' hh]
        exact ⟨Or.inr ⟨rfl, rfl⟩, fun _ => ⟨rfl, rfl⟩⟩
      | false =>
        cases hc : eff.userCreateFails with
        | true =>
          rw [register_eq_create_fail h1' h2' hh hc]
          exact ⟨Or.inr ⟨rfl, rfl⟩, fun _ => ⟨rfl, rfl⟩⟩
        | false =>
          rw [register_eq_clean h1' h2' hh hc]
          refine ⟨Or.inl
            ⟨⟨tid, input.tenantName, input.tenantType, input.email, TenantStatus.pending, false⟩,
             ⟨uid, some tid, input.email, hashPassword input.password salt, input.firstName,
               input.lastName, registerRole input, UserStatus.pending, false⟩,
             rfl, rfl, rfl, rfl⟩, ?_⟩
          intro hfail
          rcases hfail with hf | hf
          · exact absurd hf (by decide)
          · exact absurd hf (by decide)

theorem register_transaction_atomicity_witness :
    (register ⟨true, false⟩ ⟨[], []⟩
      ⟨"Acme", TenantType.supplier, "a@x.com", "pw", none, none, none⟩ "t1" "u1" 0).2 =
      (⟨[], []⟩ : DB) ∧
    (register ⟨true, false⟩ ⟨[], []⟩
      ⟨"Acme", TenantType.supplier, "a@x.com", "pw", none, none, none⟩ "t1" "u1" 0).1.isOk =
      false := by
  exact (register_transaction_atomicity ⟨true, false⟩ ⟨[], []⟩
    ⟨"Acme", TenantType.supplier, "a@x.com", "pw", none, none, none⟩ "t1" "u1" 0).2
    (Or.inl rfl)

/-! ### C10: role defaulting at registration -/

/-- C10, counterexample to the claim as stated: an input that supplies the
empty string as role does not get it stored unchanged; the bang test guarding
the default treats the empty string as absent, so the tenant-type default
supplier_admin is stored instead. -/
theorem register_empty_role_not_stored :
    (⟨"Acme", TenantType.supplier, "a@x.com", "pw", none, none, some ""⟩ :
      RegisterInput).role = some "" ∧
    (register ⟨false, false⟩ ⟨[], []⟩
      ⟨"Acme", TenantType.supplier, "a@x.com", "pw", none, none, some ""⟩
      "t1" "u1" 0).2.users.map User.role = ["supplier_admin"] ∧
    ("supplier_admin" : String) ≠ "" := by
  exact ⟨rfl, rfl, by decide⟩

/-- C10, amended: when the input role is omitted or the empty string, the
stored role is derived from the tenant type, supplier_admin for supplier and
company_admin for company; a supplied nonempty role is stored unchanged. -/
theorem register_role_defaulting (eff : TxEff) (db : DB) (input : RegisterInput)
    (tid uid : String) (salt : Nat) (res : RegisterResult) (db' : DB) :
    register eff db input tid uid salt = (.ok res, db') →
    ((input.role = none ∨ input.role = some "") →
      res.user.role = (match input.tenantType with
        | TenantType.supplier => "supplier_admin"
        | TenantType.company => "company_admin")) ∧
    (∀ r, input.role = some r → r ≠ "" → res.user.role = r) := by
  intro h
  obtain ⟨h1, h2, hh, hc⟩ := register_ok_inversion h
  rw [register_eq_clean h1 h2 hh hc] at h
  simp only [Prod.mk.injEq, Except.ok.injEq] at h
  obtain ⟨hres, _⟩ := h
  subst hres
  constructor
  · intro hrole
    show registerRole input = _
    rcases hrole with h | h <;> simp [registerRole, jsFalsy, h]
  · intro r hr hne
    show registerRole input = r
    simp [registerRole, jsFalsy, hr, beq_eq_false_iff_ne.mpr hne]

theorem register_role_defaulting_witness :
    ∃ res db', register ⟨false, false⟩ ⟨[], []⟩
        ⟨"Acme", TenantType.company, "a@x.com", "pw", none, none, some "custom_role"⟩
        "t1" "u1" 0 = (.ok res, db') ∧ res.user.role = "custom_role" := by
  have heq := @register_eq_clean ⟨false, false⟩ ⟨[], []⟩
    ⟨"Acme", TenantType.company, "a@x.com", "pw", none, none, some "custom_role"⟩
    "t1" "u1" 0 rfl rfl rfl rfl
  exact ⟨_, _, heq,
    (register_role_defaulting _ _ _ _ _ _ _ _ heq).2 "custom_role" rfl (by decide)⟩

end FriendlyUmbrella
